import Mathlib

/-!
Verification development for the Qdrant connection demo (`connect/app.py`).

The source is a thin wrapper (`QdrantManager`) around the external
`qdrant_client` library.  We embed:

* the pure wrapper logic (distance-string mapping, point shaping,
  environment parsing, the try/except structure of each method) directly
  from the source, with client calls abstracted as `Except`-valued
  functions supplied by the caller, so that an `Except.error` input models
  the client call raising an exception and an `Except.error` output models
  an exception propagating out of the wrapper method;
* a reference model of the remote Qdrant service (collections keyed by
  name, insert-or-replace point storage, similarity search sorted by
  descending score), modelled from the spec, to settle the end-to-end and
  round-trip claims.

Vectors and scores use `Rat`; the demo's literals (0.1, 0.2, ...) are
exact decimals, and the score comparisons the claims depend on are robust.
-/

/-- Error raised by a client-library call (the remote service or the
transport).  The wrappers quantify over these, so the particular
constructors only need to be inhabited and distinguishable. -/
inductive QErr where
  | notFound (name : String)
  | alreadyExists (name : String)
  | badRequest (msg : String)
  | connectionFailed (msg : String)
  deriving DecidableEq, Repr

/-- The distance metrics of `qdrant_client.models.Distance` used by the
source (`Distance.COSINE`, `Distance.DOT`, `Distance.EUCLID`). -/
inductive Distance where
  | COSINE
  | DOT
  | EUCLID
  deriving DecidableEq, Repr

/-- Embeds `qdrant_client.models.VectorParams(size=..., distance=...)`. -/
structure VectorParams where
  size : Nat
  distance : Distance
  deriving DecidableEq, Repr

/-- Point payloads.  The demo only uses flat string-to-string mappings
(`{'name': 'item_1', 'category': 'A'}`), modelled as association lists;
the empty mapping `{}` is `[]`. -/
abbrev Payload := List (String × String)

/-- Embeds `qdrant_client.models.PointStruct(id=..., vector=..., payload=...)`.
The demo uses integer ids. -/
structure PointStruct where
  id : Nat
  vector : List Rat
  payload : Payload
  deriving DecidableEq, Repr

/-- An input point as passed to `insert_points`: a Python dict with
required keys `id` and `vector` and an optional key `payload`
(absent key modelled as `none`). -/
structure InputPoint where
  id : Nat
  vector : List Rat
  payload : Option Payload
  deriving DecidableEq, Repr

/-- One scored hit as returned by `client.search`: the attributes
`result.id`, `result.score`, `result.payload` read by the wrapper. -/
structure ScoredPoint where
  id : Nat
  score : Rat
  payload : Payload
  deriving DecidableEq, Repr

/-- The dict `{'id': ..., 'score': ..., 'payload': ...}` the `search`
wrapper builds from each hit. -/
structure SearchResult where
  id : Nat
  score : Rat
  payload : Payload
  deriving DecidableEq, Repr

/-- The collection description read by `get_info` from
`client.get_collection`: `info.points_count` and
`info.config.params.vectors`. -/
structure CollectionInfo where
  points_count : Nat
  params : VectorParams
  deriving DecidableEq, Repr

/-- The dict returned by the `get_info` wrapper. -/
structure InfoDict where
  points_count : Nat
  vector_size : Nat
  distance : String
  deriving DecidableEq, Repr

/-- Modelled from the spec: a payload predicate, standing for
`qdrant_client.models.Filter` ("an optional filter restricts the
candidate set by payload predicate"). -/
abbrev QFilter := Payload → Bool

/-- The string value of a `Distance` member, as `str(...)` exposes it in
`get_info` (`Distance` is a string-valued enum with these values). -/
def distance_str : Distance → String
  | .COSINE => "Cosine"
  | .DOT => "Dot"
  | .EUCLID => "Euclid"

/-- Dot product of two vectors, pairwise products summed over the common
length. -/
def dotProduct (xs ys : List Rat) : Rat :=
  (List.zipWith (fun a b => a * b) xs ys).sum

/-- Squared Euclidean norm. -/
def sqNorm (xs : List Rat) : Rat := dotProduct xs xs

/-- Sign-preserving square, used to build a rational order-equivalent
surrogate for cosine similarity. -/
def signedSq (x : Rat) : Rat := if 0 ≤ x then x * x else -(x * x)

/-- Modelled from the spec: the similarity score the remote service ranks
hits by, determined by the collection's distance metric.  The spec fixes
only the ordering ("sorted by descending similarity score"), so for
cosine we use the order-equivalent rational surrogate
sign(q·v)·(q·v)²/(‖q‖²‖v‖²) and for Euclidean the order-equivalent
negative squared distance; the dot-product metric (the only one the
claims exercise numerically) is the exact dot product. -/
def similarity (d : Distance) (q v : List Rat) : Rat :=
  match d with
  | .DOT => dotProduct q v
  | .COSINE => signedSq (dotProduct q v) / (sqNorm q * sqNorm v)
  | .EUCLID => -(sqNorm (List.zipWith (fun a b => a - b) q v))

/-- One collection held by the model server: its vector parameters and
its stored points. -/
structure Collection where
  params : VectorParams
  points : List PointStruct

/-- Modelled from the spec: the state of the remote Qdrant service, a
partial map from collection names to collections. -/
structure ServerState where
  collections : String → Option Collection

/-- The server with no collections. -/
def emptyServer : ServerState := ⟨fun _ => none⟩

/-- Modelled from the spec: remote collection creation.  Fails on a
duplicate name or a non-positive dimensionality, otherwise records the
collection with no points. -/
def Server.create_collection (s : ServerState) (name : String)
    (params : VectorParams) : Except QErr ServerState :=
  if params.size = 0 then .error (.badRequest name)
  else
    match s.collections name with
    | some _ => .error (.alreadyExists name)
    | none =>
        .ok ⟨fun n => if n = name then some ⟨params, []⟩ else s.collections n⟩

/-- Insert-or-replace one point, keyed by id: replace every stored point
with the same id, or append when the id is new. -/
def upsertOne (pts : List PointStruct) (p : PointStruct) : List PointStruct :=
  if pts.any (fun q => q.id = p.id) then
    pts.map (fun q => if q.id = p.id then p else q)
  else pts ++ [p]

/-- Modelled from the spec: remote batch upsert ("insert-or-replace
semantics keyed by id").  Fails when the collection does not exist or a
vector's length differs from the collection's dimensionality. -/
def Server.upsert (s : ServerState) (name : String)
    (batch : List PointStruct) : Except QErr ServerState :=
  match s.collections name with
  | none => .error (.notFound name)
  | some c =>
      if batch.all (fun p => p.vector.length = c.params.size) then
        .ok ⟨fun n =>
          if n = name then some ⟨c.params, batch.foldl upsertOne c.points⟩
          else s.collections n⟩
      else .error (.badRequest name)

/-- Insert a scored point into a list sorted by descending score, keeping
it sorted. -/
def insertDesc (p : ScoredPoint) : List ScoredPoint → List ScoredPoint
  | [] => [p]
  | q :: rest =>
      if q.score < p.score then p :: q :: rest else q :: insertDesc p rest

/-- Sort scored points by descending score (insertion sort). -/
def sortByScoreDesc : List ScoredPoint → List ScoredPoint
  | [] => []
  | p :: rest => insertDesc p (sortByScoreDesc rest)

/-- Modelled from the spec: remote similarity search.  Fails when the
collection does not exist or the query length differs from the
dimensionality; otherwise scores the (optionally filtered) stored points
by the collection's metric, sorts by descending score and truncates to
`limit`. -/
def Server.search (s : ServerState) (name : String) (q : List Rat)
    (limit : Nat) (f : Option QFilter) : Except QErr (List ScoredPoint) :=
  match s.collections name with
  | none => .error (.notFound name)
  | some c =>
      if q.length = c.params.size then
        let candidates :=
          match f with
          | none => c.points
          | some flt => c.points.filter (fun p => flt p.payload)
        let scored := candidates.map
          (fun p => ⟨p.id, similarity c.params.distance q p.vector, p.payload⟩)
        .ok ((sortByScoreDesc scored).take limit)
      else .error (.badRequest name)

/-- Modelled from the spec: remote `get_collection`, returning the point
count and vector parameters, failing when the name is unknown. -/
def Server.get_collection (s : ServerState) (name : String) :
    Except QErr CollectionInfo :=
  match s.collections name with
  | none => .error (.notFound name)
  | some c => .ok ⟨c.points.length, c.params⟩

/-- Modelled from the spec: remote collection deletion, failing when the
name is unknown. -/
def Server.delete_collection (s : ServerState) (name : String) :
    Except QErr ServerState :=
  match s.collections name with
  | none => .error (.notFound name)
  | some _ =>
      .ok ⟨fun n => if n = name then none else s.collections n⟩

/-- Returns `true` exactly when an `Except` is an error. -/
def isErr {ε α : Type} : Except ε α → Bool
  | .error _ => true
  | .ok _ => false

/-! ## The wrapper methods of `QdrantManager`

Each method is embedded with the client call it makes abstracted as an
`Except`-valued argument: `.error e` for that argument models the client
call raising exception `e`.  A wrapper returning `Except` uses `.error`
to model an exception escaping the method to its caller. -/

/-- The loop of `list_collections` (app.py lines 28-40): no try/except.  The loop
body fetches each collection's info (for the printed point count); an
exception from `get_collections` or from any `get_collection` call
propagates to the caller.  Returns the collection names in order. -/
def list_collections_loop (getCollection : String → Except QErr CollectionInfo) :
    List String → Except QErr (List String)
  | [] => .ok []
  | c :: rest => do
      let _ ← getCollection c
      let names ← list_collections_loop getCollection rest
      .ok (c :: names)

/-- Embeds `list_collections` proper: early-returns `[]` when the server reports
no collections, otherwise runs the info-printing loop and returns the
accumulated names. -/
def list_collections (getCollections : Except QErr (List String))
    (getCollection : String → Except QErr CollectionInfo) :
    Except QErr (List String) := do
  let collections ← getCollections
  if collections.isEmpty then
    .ok []
  else
    list_collections_loop getCollection collections

/-- The dict literal `distance_map` of `create_collection`
(app.py lines 44-48), as a lookup returning `none` off the three keys. -/
def distance_map (s : String) : Option Distance :=
  if s = "Cosine" then some Distance.COSINE
  else if s = "Dot" then some Distance.DOT
  else if s = "Euclidean" then some Distance.EUCLID
  else none

/-- The `VectorParams` value `create_collection` passes to the client:
`distance_map.get(distance, Distance.COSINE)` is `Option.getD`. -/
def create_vector_params (vector_size : Nat) (distance : String) : VectorParams :=
  ⟨vector_size, (distance_map distance).getD Distance.COSINE⟩

/-- Embeds `create_collection` (app.py lines 42-60): builds the vector params
from the distance string, calls the client inside try/except, and returns
normally whether or not the client call failed (`.ok ()` always; the
except branch only prints). -/
def create_collection
    (clientCreate : String → VectorParams → Except QErr Unit)
    (name : String) (vector_size : Nat) (distance : String) :
    Except QErr Unit :=
  match clientCreate name (create_vector_params vector_size distance) with
  | .ok _ => .ok ()
  | .error _ => .ok ()

/-- The `PointStruct` built from one input dict (app.py lines 66-70):
`point.get('payload', {})` defaults a missing payload to the empty
mapping. -/
def toPointStruct (p : InputPoint) : PointStruct :=
  ⟨p.id, p.vector, p.payload.getD []⟩

/-- The batch `qdrant_points` accumulated by `insert_points`
(app.py lines 64-71). -/
def insert_points_batch (points : List InputPoint) : List PointStruct :=
  points.map toPointStruct

/-- Embeds `insert_points` (app.py lines 62-77): forwards the whole batch in a
single `client.upsert` call inside try/except and returns normally in
either case. -/
def insert_points
    (clientUpsert : String → List PointStruct → Except QErr Unit)
    (collection_name : String) (points : List InputPoint) :
    Except QErr Unit :=
  match clientUpsert collection_name (insert_points_batch points) with
  | .ok _ => .ok ()
  | .error _ => .ok ()

/-- Embeds `search` (app.py lines 79-104): the client call runs inside
try/except; on success each hit is reshaped into a result dict, on any
failure the method returns the empty list (never an exception). -/
def search
    (clientSearch : String → List Rat → Nat → Option QFilter →
      Except QErr (List ScoredPoint))
    (collection_name : String) (query_vector : List Rat)
    (limit : Nat) (filter_condition : Option QFilter) :
    Except QErr (List SearchResult) :=
  match clientSearch collection_name query_vector limit filter_condition with
  | .ok results =>
      .ok (results.map (fun r => ⟨r.id, r.score, r.payload⟩))
  | .error _ => .ok []

/-- Embeds `get_info` (app.py lines 106-117): reshapes the collection info into
a dict, or returns the sentinel `None` when the client call fails. -/
def get_info (clientGet : String → Except QErr CollectionInfo)
    (collection_name : String) : Option InfoDict :=
  match clientGet collection_name with
  | .ok info =>
      some ⟨info.points_count, info.params.size, distance_str info.params.distance⟩
  | .error _ => none

/-- Embeds `delete_collection` (app.py lines 119-125): the client call runs
inside try/except and the method returns normally in either case. -/
def delete_collection (clientDelete : String → Except QErr Unit)
    (collection_name : String) : Except QErr Unit :=
  match clientDelete collection_name with
  | .ok _ => .ok ()
  | .error _ => .ok ()

/-! ## Construction (`QdrantManager.__init__`) and environment parsing -/

/-- The error raised by a failing Python builtin; `int()` on a bad string
raises `ValueError`. -/
inductive PyError where
  | valueError
  deriving DecidableEq, Repr

/-- Digit run to a number: `none` unless the characters are one or more
decimal digits. -/
def digitsToNat (cs : List Char) : Option Nat :=
  if cs ≠ [] ∧ cs.all Char.isDigit then
    some (cs.foldl (fun n c => 10 * n + (c.toNat - 48)) 0)
  else none

/-- Strip leading and trailing whitespace characters. -/
def stripWs (cs : List Char) : List Char :=
  ((cs.dropWhile Char.isWhitespace).reverse.dropWhile Char.isWhitespace).reverse

/-- Modelled from Python's builtin `int(str)`: surrounding whitespace is
ignored, then an optional sign followed by at least one decimal digit;
anything else raises `ValueError` (returns `none` here). -/
def pyIntParse (s : String) : Option Int :=
  match stripWs s.data with
  | '+' :: rest => (digitsToNat rest).map Int.ofNat
  | '-' :: rest => (digitsToNat rest).map (fun n => -(n : Int))
  | cs => (digitsToNat cs).map Int.ofNat

/-- Embeds `int(os.getenv('QDRANT_PORT', 6333))` (app.py line 14): the default
6333 when the variable is unset, otherwise the string must parse as an
integer or `ValueError` is raised. -/
def effectivePort : Option String → Except PyError Int
  | none => .ok 6333
  | some s =>
      match pyIntParse s with
      | some n => .ok n
      | none => .error .valueError

/-- Python truthiness of `not self.host` (app.py line 16): the host is
falsy when the variable is unset (`None`) or set to the empty string. -/
def hostFalsy : Option String → Bool
  | none => true
  | some s => s.isEmpty

/-- Outcome of constructing `QdrantManager`: a live manager, a
`sys.exit(1)` after printed messages, or an uncaught exception
propagating out of `__init__`. -/
inductive InitResult where
  | ok (host : String) (port : Int)
  | exit1
  | uncaught (e : PyError)
  deriving DecidableEq, Repr

/-- Embeds `QdrantManager.__init__` (app.py lines 12-26): reads the host, then
converts the port (line 14, before the host check — an unparsable
`QDRANT_PORT` raises uncaught `ValueError` here); exits with status 1
when the host is falsy; then probes connectivity (client construction
plus `get_collections`) inside try/except, exiting with status 1 on
failure. -/
def QdrantManager_init (host : Option String) (portEnv : Option String)
    (probe : String → Int → Except QErr Unit) : InitResult :=
  match effectivePort portEnv with
  | .error e => .uncaught e
  | .ok port =>
      if hostFalsy host then .exit1
      else
        match probe (host.getD "") port with
        | .ok _ => .ok (host.getD "") port
        | .error _ => .exit1

/-! ## The demo sequence of `main` (app.py lines 145-181) -/

/-- The `sample_data` literal of `main` (app.py lines 153-169). -/
def sample_data : List InputPoint :=
  [⟨1, [0.1, 0.2, 0.3, 0.4], some [("name", "item_1"), ("category", "A")]⟩,
   ⟨2, [0.5, 0.6, 0.7, 0.8], some [("name", "item_2"), ("category", "B")]⟩,
   ⟨3, [0.9, 0.1, 0.5, 0.2], some [("name", "item_3"), ("category", "A")]⟩]

/-- Run one state-changing wrapper step against the model server: the
wrapper swallows failures, so on failure the server state is unchanged. -/
def stepState (s : ServerState) (r : Except QErr ServerState) : ServerState :=
  match r with
  | .ok s2 => s2
  | .error _ => s

/-- The demo portion of `main` run against the model server, from a given
initial state: create collection `"python_demo"` with size 4 and
distance `"Dot"`, insert `sample_data`, then search with query
`[0.1, 0.2, 0.3, 0.4]` and limit 2, returning the search wrapper's
results. -/
def demo_search_results (s0 : ServerState) : Except QErr (List SearchResult) :=
  let s1 := stepState s0
    (Server.create_collection s0 "python_demo" (create_vector_params 4 "Dot"))
  let s2 := stepState s1
    (Server.upsert s1 "python_demo" (insert_points_batch sample_data))
  search (fun n q l f => Server.search s2 n q l f)
    "python_demo" [0.1, 0.2, 0.3, 0.4] 2 none

/-- The port `__init__` ends up using when the port conversion does not
raise (0 as a dummy in the raising case, which `QdrantManager_init` never
reaches). -/
def portOr (portEnv : Option String) : Int :=
  match effectivePort portEnv with
  | .ok p => p
  | .error _ => 0

/-- The empty server after one successful creation of collection `"c"`
(used as a concrete state in witnesses). -/
def witnessCreated : ServerState :=
  stepState emptyServer
    (Server.create_collection emptyServer "c" (create_vector_params 4 "Dot"))

/-- The state after additionally deleting `"c"` (used as a concrete
already-deleted state in witnesses). -/
def witnessDeleted : ServerState :=
  stepState witnessCreated (Server.delete_collection witnessCreated "c")

/-! ## Theorems -/

/-- C2: `create_collection` maps the distance string by the fixed
enumeration Cosine/Dot/Euclidean; any other string silently yields cosine
similarity — the client call is the same one a `"Cosine"` argument would
make — and the method still returns normally with no warning or error. -/
theorem C2_distance_enumeration
    (cc : String → VectorParams → Except QErr Unit)
    (name : String) (sz : Nat) (s : String)
    (h1 : s ≠ "Cosine") (h2 : s ≠ "Dot") (h3 : s ≠ "Euclidean") :
    create_vector_params sz "Cosine" = ⟨sz, Distance.COSINE⟩ ∧
    create_vector_params sz "Dot" = ⟨sz, Distance.DOT⟩ ∧
    create_vector_params sz "Euclidean" = ⟨sz, Distance.EUCLID⟩ ∧
    create_vector_params sz s = ⟨sz, Distance.COSINE⟩ ∧
    create_collection cc name sz s = create_collection cc name sz "Cosine" ∧
    create_collection cc name sz s = .ok () := by
  refine ⟨rfl, rfl, rfl, ?_, ?_, ?_⟩
  · simp [create_vector_params, distance_map, h1, h2, h3]
  · simp [create_collection, create_vector_params, distance_map, h1, h2, h3]
  · unfold create_collection
    cases cc name (create_vector_params sz s) <;> rfl

/-- Witness for C2 at the unrecognized string `"Euclid"`. -/
theorem C2_distance_enumeration_witness :
    create_vector_params 4 "Cosine" = ⟨4, Distance.COSINE⟩ ∧
    create_vector_params 4 "Dot" = ⟨4, Distance.DOT⟩ ∧
    create_vector_params 4 "Euclidean" = ⟨4, Distance.EUCLID⟩ ∧
    create_vector_params 4 "Euclid" = ⟨4, Distance.COSINE⟩ ∧
    create_collection (fun _ _ => Except.ok ()) "c" 4 "Euclid" =
      create_collection (fun _ _ => Except.ok ()) "c" 4 "Cosine" ∧
    create_collection (fun _ _ => Except.ok ()) "c" 4 "Euclid" = .ok () :=
  C2_distance_enumeration (fun _ _ => Except.ok ()) "c" 4 "Euclid"
    (by decide) (by decide) (by decide)

/-- C3: `insert_points` forwards all points as a single batch upsert (the
batch is the pointwise `PointStruct` translation, with a missing payload
defaulted to the empty mapping), and returns normally for every client
outcome, failures included. -/
theorem C3_insert_points_swallow
    (cu : String → List PointStruct → Except QErr Unit)
    (name : String) (points : List InputPoint) (p : InputPoint)
    (hp : p.payload = none) :
    insert_points cu name points = .ok () ∧
    insert_points_batch points = points.map toPointStruct ∧
    toPointStruct p = ⟨p.id, p.vector, []⟩ := by
  refine ⟨?_, rfl, ?_⟩
  · unfold insert_points
    cases cu name (insert_points_batch points) <;> rfl
  · simp [toPointStruct, hp]

/-- Witness for C3: a client whose upsert always raises, and a point with
no payload key. -/
theorem C3_insert_points_swallow_witness :
    insert_points (fun _ _ => Except.error (QErr.notFound "demo")) "demo"
      sample_data = .ok () ∧
    insert_points_batch sample_data = sample_data.map toPointStruct ∧
    toPointStruct ⟨7, [1], none⟩ = ⟨7, [1], []⟩ :=
  C3_insert_points_swallow (fun _ _ => Except.error (QErr.notFound "demo"))
    "demo" sample_data ⟨7, [1], none⟩ rfl

/-- C4: when the underlying search call fails for any reason, `search`
returns the empty sequence and never propagates a fault; in particular a
nonexistent collection on the model server yields `[]`, and the outcome
is identical to that of a search that genuinely found nothing. -/
theorem C4_search_swallow
    (cs : String → List Rat → Nat → Option QFilter →
      Except QErr (List ScoredPoint))
    (name : String) (qv : List Rat) (limit : Nat) (fc : Option QFilter)
    (s : ServerState)
    (hfail : isErr (cs name qv limit fc) = true)
    (hmissing : s.collections name = none) :
    search cs name qv limit fc = .ok [] ∧
    search (fun n q l f => Server.search s n q l f) name qv limit fc = .ok [] ∧
    search cs name qv limit fc =
      search (fun _ _ _ _ => Except.ok []) name qv limit fc := by
  have h1 : search cs name qv limit fc = .ok [] := by
    unfold search
    cases h : cs name qv limit fc with
    | ok r => rw [h] at hfail; simp [isErr] at hfail
    | error e => rfl
  refine ⟨h1, ?_, ?_⟩
  · simp [search, Server.search, hmissing]
  · rw [h1]; rfl

/-- Witness for C4: a search raising a connection error, and a missing
collection on the empty server. -/
theorem C4_search_swallow_witness :
    search (fun _ _ _ _ => Except.error (QErr.connectionFailed "down"))
      "missing" [1] 5 none = .ok [] ∧
    search (fun n q l f => Server.search emptyServer n q l f)
      "missing" [1] 5 none = .ok [] ∧
    search (fun _ _ _ _ => Except.error (QErr.connectionFailed "down"))
      "missing" [1] 5 none =
      search (fun _ _ _ _ => Except.ok []) "missing" [1] 5 none :=
  C4_search_swallow (fun _ _ _ _ => Except.error (QErr.connectionFailed "down"))
    "missing" [1] 5 none emptyServer rfl rfl

/-- C7: after a successful `delete_collection`, deleting the same name
again fails on the server, but the wrapper swallows that failure and the
second call returns normally — the process does not crash. -/
theorem C7_delete_twice (s s2 : ServerState) (name : String)
    (h1 : Server.delete_collection s name = .ok s2) :
    isErr (Server.delete_collection s2 name) = true ∧
    delete_collection
      (fun n => (Server.delete_collection s2 n).map (fun _ => ())) name =
      .ok () := by
  have hnone : s2.collections name = none := by
    unfold Server.delete_collection at h1
    cases h : s.collections name with
    | none => rw [h] at h1; cases h1
    | some c =>
        rw [h] at h1
        cases h1
        simp
  constructor
  · unfold Server.delete_collection
    rw [hnone]
    rfl
  · simp [delete_collection, Server.delete_collection, hnone, Except.map]

/-- C8: when the server reports zero collections, `list_collections`
returns the empty sequence and raises no exception. -/
theorem C8_list_collections_empty
    (gc : String → Except QErr CollectionInfo) :
    list_collections (.ok []) gc = .ok [] := rfl

/-- C5 (amended): provided `QDRANT_PORT` is unset or parses as an
integer, constructing the manager exits the process with status 1 in
exactly two situations — `QDRANT_HOST` absent or empty, or the initial
list-collections connectivity probe failing — and an unset `QDRANT_PORT`
defaults the port to 6333.  (Without the proviso the claim fails: an
unparsable `QDRANT_PORT` terminates via an uncaught `ValueError`
instead, see the counterexample.) -/
theorem C5_init_exit1 (host : Option String) (portEnv : Option String)
    (probe : String → Int → Except QErr Unit)
    (hport : isErr (effectivePort portEnv) = false) :
    (QdrantManager_init host portEnv probe = .exit1 ↔
      (hostFalsy host = true ∨
        isErr (probe (host.getD "") (portOr portEnv)) = true)) ∧
    effectivePort none = .ok 6333 ∧ portOr none = 6333 := by
  refine ⟨?_, rfl, rfl⟩
  unfold QdrantManager_init portOr
  cases hep : effectivePort portEnv with
  | error e => rw [hep] at hport; simp [isErr] at hport
  | ok p =>
      cases hh : hostFalsy host with
      | true => simp
      | false =>
          cases hpr : probe (host.getD "") p <;>
            simp [isErr, hpr]

/-- Witness for C5 at an unset host, unset port and a succeeding probe:
the construction exits with status 1. -/
theorem C5_init_exit1_witness :
    (QdrantManager_init none none (fun _ _ => Except.ok ()) = .exit1 ↔
      (hostFalsy none = true ∨
        isErr ((fun (_ : String) (_ : Int) => (Except.ok () : Except QErr Unit))
          ((none : Option String).getD "") (portOr none)) = true)) ∧
    effectivePort none = .ok 6333 ∧ portOr none = 6333 :=
  C5_init_exit1 none none (fun _ _ => Except.ok ()) rfl

/-- Counterexample to C5 as stated: with `QDRANT_HOST` unset (the first
of the claim's two exit-status-1 situations) but `QDRANT_PORT` set to
`"abc"`, construction terminates through an uncaught `ValueError`, not
through the printed-message `sys.exit(1)` path. -/
theorem C5_init_exit1_counterexample :
    QdrantManager_init none (some "abc") (fun _ _ => Except.ok ()) =
      .uncaught .valueError ∧
    QdrantManager_init none (some "abc") (fun _ _ => Except.ok ()) ≠
      .exit1 := by
  have h : QdrantManager_init none (some "abc") (fun _ _ => Except.ok ()) =
      .uncaught .valueError := by
    simp [QdrantManager_init, effectivePort, pyIntParse, stripWs, digitsToNat]
  exact ⟨h, by simp [h]⟩

/-- C10: whenever the `QDRANT_PORT` string does not parse as an integer,
construction raises an uncaught `ValueError` before the host check ever
runs — for every host value, including an absent one — so the process
dies with an exception rather than via the exit-status-1 usage-message
path. -/
theorem C10_bad_port (host : Option String) (portEnv : String)
    (probe : String → Int → Except QErr Unit)
    (hbad : pyIntParse portEnv = none) :
    QdrantManager_init host (some portEnv) probe = .uncaught .valueError ∧
    QdrantManager_init host (some portEnv) probe ≠ .exit1 := by
  have h : QdrantManager_init host (some portEnv) probe = .uncaught .valueError := by
    simp [QdrantManager_init, effectivePort, hbad]
  exact ⟨h, by simp [h]⟩

/-- Witness for C10 at host unset and port `"abc"`. -/
theorem C10_bad_port_witness :
    QdrantManager_init none (some "abc") (fun _ _ => Except.ok ()) =
      .uncaught .valueError ∧
    QdrantManager_init none (some "abc") (fun _ _ => Except.ok ()) ≠
      .exit1 :=
  C10_bad_port none "abc" (fun _ _ => Except.ok ())
    (by simp [pyIntParse, stripWs, digitsToNat])

/-- Helper: if the per-collection info fetch fails for some listed name,
the `list_collections` loop propagates an error. -/
theorem list_collections_loop_err_of_mem
    (gc : String → Except QErr CollectionInfo) (c : String)
    (hfail : isErr (gc c) = true) :
    ∀ names : List String, c ∈ names →
      isErr (list_collections_loop gc names) = true := by
  intro names
  induction names with
  | nil => intro hc; cases hc
  | cons a rest ih =>
      intro hc
      unfold list_collections_loop
      cases hga : gc a with
      | error e => simp [isErr, hga, Except.bind, bind]
      | ok v =>
          have hcr : c ∈ rest := by
            rcases List.mem_cons.mp hc with h | h
            · rw [h, hga] at hfail; simp [isErr] at hfail
            · exact h
          have hr := ih hcr
          cases hloop : list_collections_loop gc rest with
          | error e => simp [isErr, hga, hloop, Except.bind, bind]
          | ok names2 => rw [hloop] at hr; simp [isErr] at hr

/-- C9: `list_collections` has no exception handler — a failing
underlying list-collections call propagates its exception to the caller,
and so does a failing per-collection info fetch inside the loop, instead
of being caught and replaced by a safe default. -/
theorem C9_list_collections_propagates (e : QErr)
    (gc : String → Except QErr CollectionInfo)
    (names : List String) (c : String)
    (hc : c ∈ names) (hfail : isErr (gc c) = true) :
    list_collections (.error e) gc = .error e ∧
    isErr (list_collections (.ok names) gc) = true := by
  refine ⟨rfl, ?_⟩
  have hne : names.isEmpty = false := by
    cases names with
    | nil => cases hc
    | cons a rest => rfl
  unfold list_collections
  simp only [Except.bind, bind, hne, Bool.false_eq_true, if_false]
  exact list_collections_loop_err_of_mem gc c hfail names hc

/-- Witness for C9: one collection whose info fetch raises. -/
theorem C9_list_collections_propagates_witness :
    list_collections (.error (QErr.connectionFailed "down"))
      (fun _ => Except.error (QErr.notFound "a")) =
      .error (QErr.connectionFailed "down") ∧
    isErr (list_collections (.ok ["a"])
      (fun _ => Except.error (QErr.notFound "a"))) = true :=
  C9_list_collections_propagates (QErr.connectionFailed "down")
    (fun _ => Except.error (QErr.notFound "a")) ["a"] "a"
    (List.mem_singleton.mpr rfl) rfl

/-- C6: creating a collection with a given positive size and then asking
`get_info` for the same name yields a dict whose `vector_size` equals
the size supplied at creation (and whose distance is the string of the
metric the creation resolved). -/
theorem C6_create_then_get_info (s : ServerState) (name : String)
    (size : Nat) (dstr : String) (s2 : ServerState)
    (hpos : 0 < size)
    (hc : Server.create_collection s name (create_vector_params size dstr) =
      .ok s2) :
    get_info (Server.get_collection s2) name =
      some ⟨0, size, distance_str ((distance_map dstr).getD Distance.COSINE)⟩ ∧
    (get_info (Server.get_collection s2) name).map InfoDict.vector_size =
      some size := by
  have hs2 : s2.collections name = some ⟨create_vector_params size dstr, []⟩ := by
    unfold Server.create_collection at hc
    have hsz : ¬ (create_vector_params size dstr).size = 0 := by
      simp [create_vector_params]
      omega
    rw [if_neg hsz] at hc
    cases h : s.collections name with
    | some cl => rw [h] at hc; cases hc
    | none =>
        rw [h] at hc
        cases hc
        simp
  have hmain : get_info (Server.get_collection s2) name =
      some ⟨0, size, distance_str ((distance_map dstr).getD Distance.COSINE)⟩ := by
    simp [get_info, Server.get_collection, hs2, create_vector_params]
  exact ⟨hmain, by rw [hmain]; rfl⟩

/-- Witness for C6: creating `"c"` with size 4 and metric `"Dot"` on the
empty server, then reading its info. -/
theorem C6_create_then_get_info_witness :
    get_info (Server.get_collection (stepState emptyServer
        (Server.create_collection emptyServer "c"
          (create_vector_params 4 "Dot")))) "c" =
      some ⟨0, 4, distance_str ((distance_map "Dot").getD Distance.COSINE)⟩ ∧
    (get_info (Server.get_collection (stepState emptyServer
        (Server.create_collection emptyServer "c"
          (create_vector_params 4 "Dot")))) "c").map InfoDict.vector_size =
      some 4 :=
  C6_create_then_get_info emptyServer "c" 4 "Dot" _ (by decide) rfl

/-- Helper: the value of the demo search on any initial server state that
does not already hold a `"python_demo"` collection. -/
theorem demo_results_of_fresh (s0 : ServerState)
    (h : s0.collections "python_demo" = none) :
    demo_search_results s0 =
      Except.ok [⟨2, 7/10, [("name", "item_2"), ("category", "B")]⟩,
                 ⟨3, 17/50, [("name", "item_3"), ("category", "A")]⟩] := by
  norm_num +decide [demo_search_results, stepState, Server.create_collection,
    Server.upsert, Server.search, create_vector_params, distance_map,
    insert_points_batch, sample_data, toPointStruct, upsertOne,
    sortByScoreDesc, insertDesc, similarity, dotProduct, search, h]

/-- C1 (amended): the demo sequence — create `"python_demo"` with size 4
and the `"Dot"` metric, insert the three sample points, search with
query `[0.1, 0.2, 0.3, 0.4]` and limit 2 — returns exactly 2 results
ordered by descending dot-product score, but the top (score-maximal)
result is id 2 with score 0.7, followed by id 3 with score 0.34; id 1,
the exact match, has the smallest dot product (0.3) and is excluded. -/
theorem C1_demo_search_order (s0 : ServerState)
    (h : s0.collections "python_demo" = none) :
    demo_search_results s0 =
      Except.ok [⟨2, 7/10, [("name", "item_2"), ("category", "B")]⟩,
                 ⟨3, 17/50, [("name", "item_3"), ("category", "A")]⟩] :=
  demo_results_of_fresh s0 h

/-- Witness for C1 (amended) on the empty server. -/
theorem C1_demo_search_order_witness :
    demo_search_results emptyServer =
      Except.ok [⟨2, 7/10, [("name", "item_2"), ("category", "B")]⟩,
                 ⟨3, 17/50, [("name", "item_3"), ("category", "A")]⟩] :=
  C1_demo_search_order emptyServer rfl

/-- Counterexample to C1 as stated: the demo search does return exactly
2 results, but their ids are `[2, 3]` — the top result is not id 1. -/
theorem C1_demo_search_counterexample :
    (demo_search_results emptyServer).map (fun l => l.map SearchResult.id) =
      .ok [2, 3] ∧
    ¬ (demo_search_results emptyServer).map
        (fun l => l.head?.map SearchResult.id) = .ok (some 1) := by
  rw [demo_results_of_fresh emptyServer rfl]
  constructor
  · rfl
  · intro hcontra
    simp [Except.map] at hcontra

/-- Witness for C7: create `"c"` on the empty server, delete it once,
then delete it again. -/
theorem C7_delete_twice_witness :
    isErr (Server.delete_collection witnessDeleted "c") = true ∧
    delete_collection
      (fun n => (Server.delete_collection witnessDeleted n).map (fun _ => ()))
      "c" = .ok () :=
  C7_delete_twice witnessCreated witnessDeleted "c" rfl
